import Mathlib

/-!
Shallow embedding of the GEX/DEX analytic pipeline from
`src/gex_calculator.py` (main module of NT_GEX_DEX_Dhan).

Floating-point arithmetic is modelled over `ℚ` (the pipeline is pure
rational arithmetic except for the Black-Scholes transcendental branch,
which is modelled over `ℝ`).  Pandas DataFrames are modelled as Lean
lists of row structures in frame order.
-/

namespace GexDex

/-- One parsed per-strike record, as produced by
`parse_option_chain_response` (the dict appended at lines 236-254 of
`gex_calculator.py`). -/
structure RawRow where
  strike : ℚ
  call_oi : ℚ
  call_iv : ℚ
  call_ltp : ℚ
  call_volume : ℚ
  call_delta_api : ℚ
  call_gamma_api : ℚ
  call_theta : ℚ
  call_vega : ℚ
  put_oi : ℚ
  put_iv : ℚ
  put_ltp : ℚ
  put_volume : ℚ
  put_delta_api : ℚ
  put_gamma_api : ℚ
  put_theta : ℚ
  put_vega : ℚ
  deriving DecidableEq, Repr

/-- A convenient all-zero record, used to build concrete test rows. -/
def zeroRow : RawRow :=
  ⟨0, 0, 0, 0, 0, 0, 0, 0, 0, 0, 0, 0, 0, 0, 0, 0, 0⟩

/-- IV normalization applied by `parse_option_chain_response` to each side:
`call_iv = float(ce_data.get('implied_volatility', 15))` followed by
`call_iv_decimal = call_iv / 100 if call_iv > 1 else call_iv`
(lines 207 and 233; identically for the put side, lines 221 and 234).
`raw = none` models an absent `implied_volatility` key. -/
def normalize_iv (raw : Option ℚ) : ℚ :=
  let iv := raw.getD 15
  if iv > 1 then iv / 100 else iv

/-- A gamma flip zone: adjacent strikes bracketing a sign change of
`Net_GEX_B` (`detect_gamma_flip_zones`, lines 477-481). -/
structure FlipZone where
  lower_strike : ℚ
  upper_strike : ℚ
  deriving DecidableEq, Repr

/-- The flip condition tested for each adjacent pair at line 476:
`(current_gex > 0 and next_gex < 0) or (current_gex < 0 and next_gex > 0)`. -/
def flipPair (g₁ g₂ : ℚ) : Prop :=
  (g₁ > 0 ∧ g₂ < 0) ∨ (g₁ < 0 ∧ g₂ > 0)

instance : DecidablePred fun p : ℚ × ℚ => flipPair p.1 p.2 := fun _ =>
  inferInstanceAs (Decidable (_ ∨ _))

instance (g₁ g₂ : ℚ) : Decidable (flipPair g₁ g₂) :=
  inferInstanceAs (Decidable (_ ∨ _))

/-- `detect_gamma_flip_zones` (lines 466-483) on a table already sorted by
ascending strike, each row reduced to its `(Strike, Net_GEX_B)` pair: scan
adjacent pairs and emit a zone when the strict flip condition holds. -/
def detect_gamma_flip_zones : List (ℚ × ℚ) → List FlipZone
  | [] => []
  | [_] => []
  | (s₁, g₁) :: (s₂, g₂) :: rest =>
      (if flipPair g₁ g₂ then [⟨s₁, s₂⟩] else []) ++
        detect_gamma_flip_zones ((s₂, g₂) :: rest)

/-- The flip condition as the spec phrases it for claim C3:
`sign(net_gex_b[i]) ≠ sign(net_gex_b[i+1])` where 0 counts as
non-positive, i.e. the two values land on different sides of the
`> 0` test. -/
def specFlipPair (g₁ g₂ : ℚ) : Prop := (g₁ > 0) ≠ (g₂ > 0)

instance (g₁ g₂ : ℚ) : Decidable (specFlipPair g₁ g₂) :=
  inferInstanceAs (Decidable (_ ≠ _))

/-- Flip-zone detection as the spec's sentence describes it (0 treated as
non-positive), to be compared with `detect_gamma_flip_zones`. -/
def specFlipZones : List (ℚ × ℚ) → List FlipZone
  | [] => []
  | [_] => []
  | (s₁, g₁) :: (s₂, g₂) :: rest =>
      (if specFlipPair g₁ g₂ then [⟨s₁, s₂⟩] else []) ++
        specFlipZones ((s₂, g₂) :: rest)

/-- GEX near-ATM bias labels (lines 445-450). -/
inductive GexBias
  | STRONG_BULLISH
  | VOLATILE
  | NEUTRAL
  deriving DecidableEq, Repr

/-- DEX near-ATM bias labels (line 453). -/
inductive DexBias
  | BULLISH
  | BEARISH
  deriving DecidableEq, Repr

/-- The GEX classification chain of `calculate_dual_gex_dex_flow`
(lines 445-450): `>50` STRONG BULLISH, `<-50` VOLATILE, else NEUTRAL. -/
def classifyGex (x : ℚ) : GexBias :=
  if x > 50 then .STRONG_BULLISH
  else if x < -50 then .VOLATILE
  else .NEUTRAL

/-- The DEX classification of line 453: `BULLISH if dex_near_total > 0
else BEARISH`. -/
def classifyDex (x : ℚ) : DexBias :=
  if x > 0 then .BULLISH else .BEARISH

/-- Display label of a GEX bias, as the Python strings. -/
def GexBias.label : GexBias → String
  | .STRONG_BULLISH => "STRONG BULLISH"
  | .VOLATILE => "VOLATILE"
  | .NEUTRAL => "NEUTRAL"

/-- Display label of a DEX bias. -/
def DexBias.label : DexBias → String
  | .BULLISH => "BULLISH"
  | .BEARISH => "BEARISH"

/-! ### Expiry-date handling (step 5 of `fetch_and_calculate_gex_dex`) -/

/-- Gregorian leap-year test, as Python's `datetime` uses. -/
def isLeapYear (y : Nat) : Bool :=
  (y % 4 == 0 && y % 100 != 0) || (y % 400 == 0)

/-- Number of days in month `m` of year `y`. -/
def daysInMonth (y m : Nat) : Nat :=
  if m = 2 then (if isLeapYear y then 29 else 28)
  else if m = 4 ∨ m = 6 ∨ m = 9 ∨ m = 11 then 30
  else 31

/-- Split a character list at each `'-'` (the semantics of
`s.split('-')` restricted to what the date formats need). -/
def splitOnDash : List Char → List (List Char)
  | [] => [[]]
  | c :: rest =>
      if c = '-' then [] :: splitOnDash rest
      else
        match splitOnDash rest with
        | [] => [[c]]
        | h :: t => (c :: h) :: t

/-- Parse a nonempty all-digit character list as a decimal number. -/
def digitsToNat? (cs : List Char) : Option Nat :=
  if cs ≠ [] ∧ cs.all Char.isDigit
  then some (cs.foldl (fun acc c => acc * 10 + (c.toNat - 48)) 0)
  else none

/-- The `%d` day field, as CPython's `_strptime` regex
`3[01]|[12]\d|0[1-9]|[1-9]| [1-9]` accepts it: one or two digits, or a
space followed by a nonzero digit (space-padded day).  Values outside
1..31 and the shape `00` are already excluded by that regex; the
per-month calendar bound is checked by the caller, as `datetime` does. -/
def parseDayField (cs : List Char) : Option Nat :=
  match cs with
  | [' ', c] =>
      if c.isDigit ∧ c ≠ '0' then some (c.toNat - 48) else none
  | _ =>
      if cs ≠ [] ∧ cs.length ≤ 2 ∧ cs.all Char.isDigit
      then some (cs.foldl (fun acc c => acc * 10 + (c.toNat - 48)) 0)
      else none

/-- `datetime.strptime(s, '%Y-%m-%d')` (line 332) as a calendar-date
parse, following CPython's `_strptime` regexes and `datetime` range
checks: three dash-separated fields; `%Y` is exactly four digits
(`\d\d\d\d`) with year ≥ 1 (`datetime.MINYEAR`); `%m` is one or two
digits in 1..12 (`1[0-2]|0[1-9]|[1-9]`); `%d` is as `parseDayField`,
with the day validated against the month's length.  Any other shape
raises in the program, modelled as `none`. -/
def strptimeISO (s : String) : Option (Nat × Nat × Nat) :=
  match splitOnDash s.toList with
  | [ys, ms, ds] =>
      match digitsToNat? ys, digitsToNat? ms, parseDayField ds with
      | some y, some m, some d =>
          if ys.length = 4 ∧ ms.length ≤ 2 ∧
             1 ≤ y ∧ 1 ≤ m ∧ m ≤ 12 ∧ 1 ≤ d ∧ d ≤ daysInMonth y m
          then some (y, m, d) else none
      | _, _, _ => none
  | _ => none

/-- Lower-case English month abbreviations, for the `%b` directive. -/
def monthAbbrevs : List (List Char) :=
  ["jan", "feb", "mar", "apr", "may", "jun",
   "jul", "aug", "sep", "oct", "nov", "dec"].map String.toList

/-- `datetime.strptime(s, '%d-%b-%Y')`: the `DD-Mon-YYYY` format the spec
names as the secondary accepted expiry format, with the same CPython
field conventions as `strptimeISO` (`%d` as `parseDayField`, `%b` a
month name matched case-insensitively, `%Y` exactly four digits with
year ≥ 1). -/
def strptimeDDMonYYYY (s : String) : Option (Nat × Nat × Nat) :=
  match splitOnDash s.toList with
  | [ds, ms, ys] =>
      match parseDayField ds, digitsToNat? ys with
      | some d, some y =>
          let mi := monthAbbrevs.findIdx (fun nm => nm == ms.map Char.toLower)
          if mi < 12 ∧ ys.length = 4 ∧
             1 ≤ y ∧ 1 ≤ d ∧ d ≤ daysInMonth y (mi + 1)
          then some (y, mi + 1, d) else none
      | _, _ => none
  | _ => none

/-- Outcome of the expiry computation: either a parsed calendar date or
the `datetime.now() + timedelta(days=7)` fallback. -/
inductive ExpiryDate
  | parsed (y m d : Nat)
  | weekFromToday
  deriving DecidableEq, Repr

/-- Lines 331-334 of `fetch_and_calculate_gex_dex`:
`try: expiry_date = datetime.strptime(selected_expiry, '%Y-%m-%d')`
`except: expiry_date = datetime.now() + timedelta(days=7)`. -/
def computeExpiryDate (selected_expiry : String) : ExpiryDate :=
  match strptimeISO selected_expiry with
  | some (y, m, d) => .parsed y m d
  | none => .weekFromToday

/-- Expiry handling as claim C4 describes it: ISO `YYYY-MM-DD` primary,
`DD-Mon-YYYY` secondary, fallback to today+7 only when neither parses.
To be compared with `computeExpiryDate`. -/
def computeExpiryDateSpec (s : String) : ExpiryDate :=
  match strptimeISO s with
  | some (y, m, d) => .parsed y m d
  | none =>
      match strptimeDDMonYYYY s with
      | some (y, m, d) => .parsed y m d
      | none => .weekFromToday

/-! ### Black-Scholes engine (`BlackScholesCalculator`, lines 8-26) -/

/-- Standard normal density `norm.pdf`. -/
noncomputable def normalPdf (x : ℝ) : ℝ :=
  Real.exp (-(x ^ 2) / 2) / Real.sqrt (2 * Real.pi)

/-- Standard normal cumulative distribution `norm.cdf`. -/
noncomputable def normalCdf (x : ℝ) : ℝ :=
  ∫ t in Set.Iic x, normalPdf t

/-- The `d1` term shared by lines 13 and 21:
`(np.log(S / K) + (r + 0.5 * sigma ** 2) * T) / (sigma * np.sqrt(T))`. -/
noncomputable def d1 (S K T r sigma : ℝ) : ℝ :=
  (Real.log (S / K) + (r + 0.5 * sigma ^ 2) * T) / (sigma * Real.sqrt T)

/-- `BlackScholesCalculator.calculate_gamma` (lines 10-15). -/
noncomputable def calculate_gamma (S K T r sigma : ℝ) : ℝ :=
  if T ≤ 0 ∨ sigma ≤ 0 then 0
  else normalPdf (d1 S K T r sigma) / (S * sigma * Real.sqrt T)

/-- `BlackScholesCalculator.calculate_delta` (lines 17-26); the final
argument is `option_type`, compared lower-cased against `'call'`. -/
noncomputable def calculate_delta (S K T r sigma : ℝ)
    (option_type : String) : ℝ :=
  if T ≤ 0 ∨ sigma ≤ 0 then 0
  else if option_type.toLower = "call" then normalCdf (d1 S K T r sigma)
  else normalCdf (d1 S K T r sigma) - 1

/-! ### Steps 4-7 of `fetch_and_calculate_gex_dex` (lines 314-419)

The network/parse stages (steps 1-3) and the expiry computation
(step 5, modelled above as `computeExpiryDate`) produce the inputs
`parsed`, `underlying_price`, `T` and `r` taken here as arguments.
The Black-Scholes calls of step 6 are taken as function arguments
(`bsGamma`, `bsDelta`), standing for `self.bs_calc.calculate_gamma` /
`calculate_delta`; the Boolean argument of `bsDelta` is `true` for
`'call'` and `false` for `'put'`. -/

/-- A row after step 6 added the four Greek columns. -/
structure GreeksRow extends RawRow where
  call_gamma : ℚ
  put_gamma : ℚ
  call_delta : ℚ
  put_delta : ℚ
  deriving DecidableEq, Repr

/-- A row after step 7 added the exposure columns. -/
structure ExpRow extends GreeksRow where
  call_gex : ℚ
  put_gex : ℚ
  net_gex : ℚ
  net_gex_b : ℚ
  call_dex : ℚ
  put_dex : ℚ
  net_dex : ℚ
  net_dex_b : ℚ
  hedging_pressure : ℚ
  total_volume : ℚ
  deriving DecidableEq, Repr

/-- The strike filter of step 4 (lines 319-322):
`underlying_price - range_points <= Strike <= underlying_price + range_points`
where `range_points = strikes_range * strike_step`. -/
def inRange (underlying_price range_points : ℚ) (row : RawRow) : Bool :=
  decide (underlying_price - range_points ≤ row.strike) &&
    decide (row.strike ≤ underlying_price + range_points)

/-- Line 316: `strike_step = 50 if symbol in ["NIFTY", "FINNIFTY"] else 100`. -/
def strike_step (symbol : String) : ℚ :=
  if symbol = "NIFTY" ∨ symbol = "FINNIFTY" then 50 else 100

/-- Step 6 (lines 343-376): if the filtered frame carries any nonzero
API call gamma (`df['Call_Gamma_API'].abs().sum() > 0`), copy the four
API Greek columns; otherwise compute each Greek by Black-Scholes with
the IV clamped below by 0.01. -/
def computeGreeks (bsGamma : ℚ → ℚ → ℚ → ℚ → ℚ → ℚ)
    (bsDelta : ℚ → ℚ → ℚ → ℚ → ℚ → Bool → ℚ)
    (underlying_price T r : ℚ) (rows : List RawRow) : List GreeksRow :=
  if (rows.map (fun x => |x.call_gamma_api|)).sum > 0 then
    rows.map (fun x =>
      { toRawRow := x
        call_gamma := x.call_gamma_api
        put_gamma := x.put_gamma_api
        call_delta := x.call_delta_api
        put_delta := x.put_delta_api })
  else
    rows.map (fun x =>
      { toRawRow := x
        call_gamma := bsGamma underlying_price x.strike T r (max x.call_iv 0.01)
        put_gamma := bsGamma underlying_price x.strike T r (max x.put_iv 0.01)
        call_delta := bsDelta underlying_price x.strike T r (max x.call_iv 0.01) true
        put_delta := bsDelta underlying_price x.strike T r (max x.put_iv 0.01) false })

/-- The per-row part of step 7 (lines 384-393 and 398): GEX, DEX and
volume columns.  `hedging_pressure` is a whole-frame column assigned
afterwards (lines 396-397) and is initialised to 0 here. -/
def exposureColumns (underlying_price : ℚ) (g : GreeksRow) : ExpRow :=
  let call_gex := g.call_gamma * g.call_oi * underlying_price * underlying_price * 0.01
  let put_gex := g.put_gamma * g.put_oi * underlying_price * underlying_price * 0.01 * (-1)
  let net_gex := call_gex + put_gex
  let call_dex := g.call_delta * g.call_oi * underlying_price * 0.01
  let put_dex := g.put_delta * g.put_oi * underlying_price * 0.01
  let net_dex := call_dex + put_dex
  { toGreeksRow := g
    call_gex := call_gex
    put_gex := put_gex
    net_gex := net_gex
    net_gex_b := net_gex / 1e9
    call_dex := call_dex
    put_dex := put_dex
    net_dex := net_dex
    net_dex_b := net_dex / 1e9
    hedging_pressure := 0
    total_volume := g.call_volume + g.put_volume }

/-- Lines 396-397:
`total_gex = df['Net_GEX'].abs().sum()` and
`df['Hedging_Pressure'] = (df['Net_GEX'] / total_gex * 100) if total_gex > 0 else 0`. -/
def assignHedgingPressure (rows : List ExpRow) : List ExpRow :=
  let total_gex := (rows.map (fun row => |row.net_gex|)).sum
  rows.map (fun row =>
    { row with hedging_pressure :=
        if total_gex > 0 then row.net_gex / total_gex * 100 else 0 })

/-- Python `int()` truncation toward zero on a rational. -/
def pyInt (q : ℚ) : ℤ := q.num.tdiv q.den

/-- The `atm_info` fields the core computes (lines 404-406; the
`expiry_date` / `days_to_expiry` entries are pass-throughs of step 5's
inputs and are not repeated here). -/
structure AtmInfo where
  atm_strike : ℤ
  atm_straddle_premium : ℚ
  deriving DecidableEq, Repr

/-- The result bundle returned at line 419 (the constant source tag
`"DhanHQ API v2"` is omitted). -/
structure SnapshotResult where
  table : List ExpRow
  underlying_price : ℚ
  atm_info : AtmInfo
  deriving DecidableEq, Repr

/-- Steps 4, 6, 7 and the ATM computation of
`fetch_and_calculate_gex_dex` (lines 314-419).  The raise at line 325
(`No strikes in range`) is modelled as `Except.error`.  The ATM row
(lines 401-402) is the first row minimising `|Strike - underlying_price|`:
the stable `argsort().iloc[0]` picks the first minimiser, and the first
minimising row is also the first row bearing its strike value, so
`df[df['Strike'] == atm_strike].iloc[0]` is that same row. -/
def fetch_and_calculate_gex_dex (bsGamma : ℚ → ℚ → ℚ → ℚ → ℚ → ℚ)
    (bsDelta : ℚ → ℚ → ℚ → ℚ → ℚ → Bool → ℚ)
    (parsed : List RawRow) (underlying_price range_points T r : ℚ) :
    Except String SnapshotResult :=
  match parsed.filter (inRange underlying_price range_points) with
  | [] => .error "No strikes in range"
  | x :: xs =>
      let g := computeGreeks bsGamma bsDelta underlying_price T r (x :: xs)
      let table := assignHedgingPressure (g.map (exposureColumns underlying_price))
      let atm_row := xs.foldl
        (fun best y =>
          if |y.strike - underlying_price| < |best.strike - underlying_price|
          then y else best) x
      .ok
        { table := table
          underlying_price := underlying_price
          atm_info :=
            { atm_strike := pyInt atm_row.strike
              atm_straddle_premium := atm_row.call_ltp + atm_row.put_ltp } }

/-! ### `calculate_dual_gex_dex_flow` (lines 430-464) -/

/-- The five-entry dict returned at lines 455-461. -/
structure FlowSummary where
  gex_near_total : ℚ
  dex_near_total : ℚ
  gex_near_bias : GexBias
  dex_near_bias : DexBias
  combined_bias : String
  deriving DecidableEq, Repr

/-- Ordered insertion used to model `df.sort_values('Strike')`. -/
def insertByStrike (x : ExpRow) : List ExpRow → List ExpRow
  | [] => [x]
  | y :: ys => if x.strike ≤ y.strike then x :: y :: ys else y :: insertByStrike x ys

/-- `df.sort_values('Strike')`: stable sort by ascending strike. -/
def sortByStrike (l : List ExpRow) : List ExpRow := l.foldr insertByStrike []

/-- Lines 434-435: position, in the sorted frame, of the first row
minimising `|Strike - futures_ltp|` (`idxmin` then `get_loc`); `idxmin`
raises on an empty frame, modelled as `none`. -/
def atmPosition (futures_ltp : ℚ) : List ExpRow → Option Nat
  | [] => none
  | x :: xs =>
      let r := xs.foldl
        (fun (acc : Nat × ℚ × Nat) y =>
          if |y.strike - futures_ltp| < acc.2.1
          then (acc.2.2, |y.strike - futures_ltp|, acc.2.2 + 1)
          else (acc.1, acc.2.1, acc.2.2 + 1))
        (0, |x.strike - futures_ltp|, 1)
      some r.1

/-- `calculate_dual_gex_dex_flow` (lines 430-464).  The `try/except`
returning `None` is modelled as `Option`; in this embedding the only
failing internal step is `idxmin` on an empty frame.  `iloc[start:end]`
with `start = max(0, pos-5)` and `end = min(len, pos+6)` is
`(take end).drop start` (truncated `Nat` subtraction gives the `max 0`). -/
def calculate_dual_gex_dex_flow (df : List ExpRow) (futures_ltp : ℚ) :
    Option FlowSummary :=
  let df_sorted := sortByStrike df
  match atmPosition futures_ltp df_sorted with
  | none => none
  | some atm_position =>
      let start_idx := atm_position - 5
      let end_idx := min df_sorted.length (atm_position + 6)
      let near_strikes := (df_sorted.take end_idx).drop start_idx
      let positive_gex :=
        ((near_strikes.filter (fun row => decide (row.net_gex_b > 0))).map
          (fun row => row.net_gex_b)).sum
      let negative_gex :=
        ((near_strikes.filter (fun row => decide (row.net_gex_b < 0))).map
          (fun row => row.net_gex_b)).sum
      let gex_near_total := positive_gex + negative_gex
      let gex_bias := classifyGex gex_near_total
      let dex_near_total := (near_strikes.map (fun row => row.net_dex_b)).sum
      let dex_bias := classifyDex dex_near_total
      some
        { gex_near_total := gex_near_total
          dex_near_total := dex_near_total
          gex_near_bias := gex_bias
          dex_near_bias := dex_bias
          combined_bias := gex_bias.label ++ " + " ++ dex_bias.label }

/-! ### Concrete sample inputs used to exercise the pipeline -/

/-- A constant stand-in for the Black-Scholes gamma callback. -/
def zeroGamma : ℚ → ℚ → ℚ → ℚ → ℚ → ℚ := fun _ _ _ _ _ => 0

/-- A constant stand-in for the Black-Scholes delta callback. -/
def zeroDelta : ℚ → ℚ → ℚ → ℚ → ℚ → Bool → ℚ := fun _ _ _ _ _ _ => 0

/-- A second, different gamma callback, used to show the callbacks are
not consulted on the API-Greeks path. -/
def oneGamma : ℚ → ℚ → ℚ → ℚ → ℚ → ℚ := fun _ _ _ _ _ => 1

/-- A second, different delta callback. -/
def oneDelta : ℚ → ℚ → ℚ → ℚ → ℚ → Bool → ℚ := fun _ _ _ _ _ _ => 1

/-- A strike-100 record whose API call gamma is 1 with call OI 1:
its net GEX is positive. -/
def apiPosRow : RawRow :=
  { zeroRow with strike := 100, call_oi := 1, call_gamma_api := 1 }

/-- A strike-200 record whose API put gamma is 1 with put OI 1:
its net GEX is negative (the put leg is sign-flipped). -/
def apiNegRow : RawRow :=
  { zeroRow with strike := 200, put_oi := 1, put_gamma_api := 1 }

/-- A record at strike 23250, just below the `[23300, 25700]` window. -/
def row23250 : RawRow := { zeroRow with strike := 23250 }

/-- A record at strike 23300, the lower edge of the window. -/
def row23300 : RawRow := { zeroRow with strike := 23300 }

/-- The pipeline result on the single positive-GEX row. -/
def sampleOut : SnapshotResult :=
  (fetch_and_calculate_gex_dex zeroGamma zeroDelta [apiPosRow] 100 1000 1 0).toOption.getD
    ⟨[], 0, ⟨0, 0⟩⟩

/-- A concrete exposure row (all Greeks zero) at strike 100. -/
def sampleExpRow : ExpRow :=
  exposureColumns 100
    { toRawRow := { zeroRow with strike := 100 }
      call_gamma := 0, put_gamma := 0, call_delta := 0, put_delta := 0 }

/-- The flow summary computed on the single sample exposure row. -/
def sampleFlow : FlowSummary :=
  (calculate_dual_gex_dex_flow [sampleExpRow] 100).getD
    ⟨0, 0, .NEUTRAL, .BEARISH, ""⟩

/-! ## Theorems -/

/-- C2: counterexample — a supplied implied volatility of 0 is kept as 0
by the parser's normalization, not defaulted to 0.15 as the claim
states (the `get(..., 15)` default fires only when the field is
absent). -/
theorem C2_counterexample :
    normalize_iv (some 0) = 0 ∧ ((0 : ℚ) ≠ 15 / 100) := by
  norm_num [normalize_iv]

/-- C2 (amended): a missing IV yields 0.15 (default 15, then divided by
100); a supplied IV strictly greater than 1 is divided by 100; a
supplied IV less than or equal to 1 — including zero and negative
values — is kept as-is. -/
theorem C2_iv_normalization (v : ℚ) :
    normalize_iv none = 15 / 100 ∧
    (1 < v → normalize_iv (some v) = v / 100) ∧
    (v ≤ 1 → normalize_iv (some v) = v) := by
  refine ⟨by norm_num [normalize_iv], fun h => ?_, fun h => ?_⟩
  · simp [normalize_iv, h]
  · simp [normalize_iv, not_lt.mpr h]

/-- Witness for C2: a supplied IV of 20 (a percentage) becomes 0.2, and
a supplied IV of 0.5 is kept unchanged. -/
theorem C2_iv_normalization_witness :
    ((1 : ℚ) < 20 ∧ normalize_iv (some 20) = 20 / 100) ∧
    ((1 / 2 : ℚ) ≤ 1 ∧ normalize_iv (some (1 / 2)) = 1 / 2) :=
  ⟨⟨by norm_num, (C2_iv_normalization 20).2.1 (by norm_num)⟩,
   ⟨by norm_num, (C2_iv_normalization (1 / 2)).2.2 (by norm_num)⟩⟩

/-- The scan of `detect_gamma_flip_zones` is the filterMap of the strict
flip test over adjacent pairs. -/
theorem detect_flip_eq_filterMap (rows : List (ℚ × ℚ)) :
    detect_gamma_flip_zones rows =
      (rows.zip rows.tail).filterMap
        (fun p => if flipPair p.1.2 p.2.2 then some ⟨p.1.1, p.2.1⟩ else none) := by
  induction rows with
  | nil => rfl
  | cons x rest ih =>
      cases rest with
      | nil => rfl
      | cons y rest2 =>
          obtain ⟨s₁, g₁⟩ := x
          obtain ⟨s₂, g₂⟩ := y
          rw [detect_gamma_flip_zones, ih]
          simp only [List.tail_cons, List.zip_cons_cons, List.filterMap_cons]
          split
          · simp
          · simp

/-- Counting helper: the length of a guarded `filterMap` is a `countP`. -/
theorem length_filterMap_ite {α β : Type} (c : α → Prop) [DecidablePred c]
    (f : α → β) (l : List α) :
    (l.filterMap (fun a => if c a then some (f a) else none)).length =
      l.countP (fun a => decide (c a)) := by
  induction l with
  | nil => rfl
  | cons a l ih =>
      rw [List.filterMap_cons, List.countP_cons]
      by_cases h : c a
      · simp [h, ih]
      · simp [h, ih]

/-- C3: counterexample — on the ascending table with `net_gex_b` values
`1` then `0`, the claim's reading (0 treated as non-positive, so the
pair's signs differ) predicts one flip zone, but the code's strict test
`(>0 and <0) or (<0 and >0)` emits none. -/
theorem C3_counterexample :
    detect_gamma_flip_zones [(100, 1), (200, 0)] = [] ∧
    specFlipZones [(100, 1), (200, 0)] = [⟨100, 200⟩] := by decide

/-- C3 (amended): the detector emits a zone for exactly those adjacent
pairs whose `net_gex_b` values are both nonzero and of strictly opposite
signs (pairs involving a zero never emit); hence 0 zones for a strictly
one-signed sequence, and exactly as many zones as there are such strict
sign changes, in ascending scan order. -/
theorem C3_flip_zone_detection (rows : List (ℚ × ℚ)) :
    (detect_gamma_flip_zones rows =
      (rows.zip rows.tail).filterMap
        (fun p => if flipPair p.1.2 p.2.2 then some ⟨p.1.1, p.2.1⟩ else none)) ∧
    ((∀ p ∈ rows, 0 < p.2) ∨ (∀ p ∈ rows, p.2 < 0) →
      detect_gamma_flip_zones rows = []) ∧
    ((detect_gamma_flip_zones rows).length =
      (rows.zip rows.tail).countP (fun p => decide (flipPair p.1.2 p.2.2))) := by
  refine ⟨detect_flip_eq_filterMap rows, fun h => ?_, by
    rw [detect_flip_eq_filterMap]; exact length_filterMap_ite _ _ _⟩
  rw [detect_flip_eq_filterMap, List.filterMap_eq_nil_iff]
  rintro ⟨p, q⟩ hpq
  obtain ⟨hp, hq⟩ := List.of_mem_zip hpq
  have hq' : q ∈ rows := List.mem_of_mem_tail hq
  have : ¬ flipPair p.2 q.2 := by
    rcases h with h | h
    · rintro (⟨_, hneg⟩ | ⟨hneg, _⟩)
      · exact absurd (h q hq') (not_lt.mpr hneg.le)
      · exact absurd (h p hp) (not_lt.mpr hneg.le)
    · rintro (⟨hpos, _⟩ | ⟨_, hpos⟩)
      · exact absurd (h p hp) (not_lt.mpr hpos.le)
      · exact absurd (h q hq') (not_lt.mpr hpos.le)
  simp [this]

/-- Witness for C3: a strictly positive two-row table yields no zones,
and a table with one strict sign change yields exactly one. -/
theorem C3_flip_zone_detection_witness :
    detect_gamma_flip_zones [(100, 5), (200, 7)] = [] ∧
    (detect_gamma_flip_zones [(100, 5), (200, -7)]).length =
      ([((100 : ℚ), (5 : ℚ)), (200, -7)].zip [((200 : ℚ), (-7 : ℚ))]).countP
        (fun p => decide (flipPair p.1.2 p.2.2)) :=
  ⟨(C3_flip_zone_detection [(100, 5), (200, 7)]).2.1 (Or.inl (by decide)),
   (C3_flip_zone_detection [(100, 5), (200, -7)]).2.2⟩

/-- C4: counterexample — the `DD-Mon-YYYY` string `"17-Oct-2024"` is a
valid secondary-format date, so the claim says it is accepted; the code
only tries `%Y-%m-%d` and therefore falls back to today+7 on it. -/
theorem C4_counterexample :
    computeExpiryDate "17-Oct-2024" = .weekFromToday ∧
    strptimeDDMonYYYY "17-Oct-2024" = some (2024, 10, 17) ∧
    computeExpiryDateSpec "17-Oct-2024" = .parsed 2024 10 17 ∧
    ExpiryDate.weekFromToday ≠ ExpiryDate.parsed 2024 10 17 := by
  refine ⟨by decide, by decide, by decide, by decide⟩

/-- C4 (amended): the expiry date accepts only ISO `YYYY-MM-DD`; every
expiry string not parsable in that format — including `DD-Mon-YYYY`
strings — makes the expiry default to today plus 7 days. -/
theorem C4_expiry_iso_only (s : String) (y m d : Nat) :
    (strptimeISO s = some (y, m, d) → computeExpiryDate s = .parsed y m d) ∧
    (strptimeISO s = none → computeExpiryDate s = .weekFromToday) := by
  constructor <;> intro h <;> simp [computeExpiryDate, h]

/-- Witness for C4: a concrete ISO date parses (also with CPython's
space-padded `%d` day), while a non-date string, a three-digit year
(`%Y` demands exactly four digits) and a `DD-Mon-YYYY` string all fall
back to today+7. -/
theorem C4_expiry_iso_only_witness :
    (strptimeISO "2024-10-17" = some (2024, 10, 17) ∧
      computeExpiryDate "2024-10-17" = .parsed 2024 10 17) ∧
    (strptimeISO "2024-10- 7" = some (2024, 10, 7) ∧
      computeExpiryDate "2024-10- 7" = .parsed 2024 10 7) ∧
    (strptimeISO "not-a-date" = none ∧
      computeExpiryDate "not-a-date" = .weekFromToday) ∧
    (strptimeISO "999-01-01" = none ∧
      computeExpiryDate "999-01-01" = .weekFromToday) ∧
    (strptimeISO "17-Oct-2024" = none ∧
      computeExpiryDate "17-Oct-2024" = .weekFromToday) :=
  ⟨⟨by decide, (C4_expiry_iso_only "2024-10-17" 2024 10 17).1 (by decide)⟩,
   ⟨by decide, (C4_expiry_iso_only "2024-10- 7" 2024 10 7).1 (by decide)⟩,
   ⟨by decide, (C4_expiry_iso_only "not-a-date" 0 0 0).2 (by decide)⟩,
   ⟨by decide, (C4_expiry_iso_only "999-01-01" 0 0 0).2 (by decide)⟩,
   ⟨by decide, (C4_expiry_iso_only "17-Oct-2024" 0 0 0).2 (by decide)⟩⟩

/-- C8: for every `(S, K, T, r, σ)` with `T ≤ 0` or `σ ≤ 0`, both
`calculate_gamma` and `calculate_delta` (for either option side) return
exactly 0 — the degenerate guard short-circuits before any formula is
evaluated, so no error can arise. -/
theorem C8_degenerate_greeks (S K T r sigma : ℝ) (h : T ≤ 0 ∨ sigma ≤ 0) :
    calculate_gamma S K T r sigma = 0 ∧
    ∀ option_type : String, calculate_delta S K T r sigma option_type = 0 := by
  constructor
  · simp only [calculate_gamma, if_pos h]
  · intro option_type
    simp only [calculate_delta, if_pos h]

/-- Witness for C8 at `T = 0` with otherwise regular market inputs. -/
theorem C8_degenerate_greeks_witness :
    ((0 : ℝ) ≤ 0 ∨ (0.15 : ℝ) ≤ 0) ∧
    calculate_gamma 24500 24000 0 0.07 0.15 = 0 ∧
    calculate_delta 24500 24000 0 0.07 0.15 "put" = 0 :=
  ⟨Or.inl le_rfl,
   (C8_degenerate_greeks 24500 24000 0 0.07 0.15 (Or.inl le_rfl)).1,
   (C8_degenerate_greeks 24500 24000 0 0.07 0.15 (Or.inl le_rfl)).2 "put"⟩

/-- Reassigning the hedging-pressure column leaves `net_gex` untouched. -/
theorem assignHedgingPressure_net_gex (pre : List ExpRow) :
    (assignHedgingPressure pre).map (fun row => |row.net_gex|) =
      pre.map (fun row => |row.net_gex|) := by
  unfold assignHedgingPressure
  rw [List.map_map]
  rfl

/-- When the total absolute net GEX is positive, the absolute hedging
pressures assigned at lines 396-397 sum to exactly 100. -/
theorem assignHedgingPressure_abs_sum (pre : List ExpRow)
    (h : (pre.map (fun row => |row.net_gex|)).sum > 0) :
    ((assignHedgingPressure pre).map (fun row => |row.hedging_pressure|)).sum = 100 := by
  unfold assignHedgingPressure
  rw [List.map_map]
  have hcomp :
      ((fun row : ExpRow => |row.hedging_pressure|) ∘
        (fun row : ExpRow =>
          { row with hedging_pressure :=
              if (pre.map (fun row => |row.net_gex|)).sum > 0
              then row.net_gex / (pre.map (fun row => |row.net_gex|)).sum * 100
              else 0 })) =
      fun row : ExpRow =>
        |row.net_gex| * (100 / (pre.map (fun row => |row.net_gex|)).sum) := by
    funext row
    have hT : (0 : ℚ) < (pre.map (fun row => |row.net_gex|)).sum := h
    simp only [Function.comp_apply, if_pos h]
    rw [div_mul_eq_mul_div, abs_div, abs_mul]
    rw [abs_of_pos hT, abs_of_pos (by norm_num : (0 : ℚ) < 100)]
    rw [mul_div_assoc]
  rw [hcomp, List.sum_map_mul_right]
  rw [mul_div_assoc']
  exact mul_div_cancel_left₀ 100 (ne_of_gt h)

/-- When the total absolute net GEX is zero, every hedging pressure is
assigned the scalar 0. -/
theorem assignHedgingPressure_zero (pre : List ExpRow)
    (h : (pre.map (fun row => |row.net_gex|)).sum = 0) :
    ∀ row ∈ assignHedgingPressure pre, row.hedging_pressure = 0 := by
  intro row hrow
  unfold assignHedgingPressure at hrow
  rw [List.mem_map] at hrow
  obtain ⟨a, _, rfl⟩ := hrow
  simp [h]

/-- The table produced by `fetch_and_calculate_gex_dex` is the
hedging-pressure assignment over the exposure columns. -/
theorem fetch_table_shape (bsGamma : ℚ → ℚ → ℚ → ℚ → ℚ → ℚ)
    (bsDelta : ℚ → ℚ → ℚ → ℚ → ℚ → Bool → ℚ)
    (parsed : List RawRow) (underlying_price range_points T r : ℚ)
    (out : SnapshotResult)
    (hout : fetch_and_calculate_gex_dex bsGamma bsDelta parsed
      underlying_price range_points T r = .ok out) :
    out.table =
      assignHedgingPressure
        ((computeGreeks bsGamma bsDelta underlying_price T r
            (parsed.filter (inRange underlying_price range_points))).map
          (exposureColumns underlying_price)) := by
  unfold fetch_and_calculate_gex_dex at hout
  rcases hfil : parsed.filter (inRange underlying_price range_points) with _ | ⟨x, xs⟩
  · rw [hfil] at hout
    exact absurd hout (by simp)
  · rw [hfil] at hout
    simp only [Except.ok.injEq] at hout
    rw [← hout]

/-- C1: counterexample — on a table whose net GEX values are `100` and
`-100` (total absolute net GEX `200 > 0`), the hedging pressures are
`50` and `-50`, so their sum is `0`, not `100` as the claim states. -/
theorem C1_counterexample :
    (fetch_and_calculate_gex_dex zeroGamma zeroDelta [apiPosRow, apiNegRow]
        100 1000 1 0).map
      (fun o => ((o.table.map (fun row => |row.net_gex|)).sum,
                 (o.table.map (fun row => row.hedging_pressure)).sum))
      = .ok (200, 0) ∧
    ((200 : ℚ) > 0) ∧ ((0 : ℚ) ≠ 100) := by
  refine ⟨?_, by norm_num, by norm_num⟩
  norm_num [fetch_and_calculate_gex_dex, computeGreeks, exposureColumns,
    assignHedgingPressure, inRange, apiPosRow, apiNegRow, zeroRow,
    List.filter_cons, Except.map]

/-- C1 (amended): for every exposure table produced by the aggregator,
the sum of the *absolute values* of `hedging_pressure` equals 100
whenever the sum of `|net_gex|` is strictly positive (the signed sum is
`Σ net_gex / Σ|net_gex| · 100`, not 100 in general); when `Σ|net_gex|`
is 0, every `hedging_pressure` is 0. -/
theorem C1_hedging_pressure (bsGamma : ℚ → ℚ → ℚ → ℚ → ℚ → ℚ)
    (bsDelta : ℚ → ℚ → ℚ → ℚ → ℚ → Bool → ℚ)
    (parsed : List RawRow) (underlying_price range_points T r : ℚ)
    (out : SnapshotResult)
    (hout : fetch_and_calculate_gex_dex bsGamma bsDelta parsed
      underlying_price range_points T r = .ok out) :
    ((out.table.map (fun row => |row.net_gex|)).sum > 0 →
      (out.table.map (fun row => |row.hedging_pressure|)).sum = 100) ∧
    ((out.table.map (fun row => |row.net_gex|)).sum = 0 →
      ∀ row ∈ out.table, row.hedging_pressure = 0) := by
  rw [fetch_table_shape bsGamma bsDelta parsed underlying_price range_points T r out hout]
  rw [assignHedgingPressure_net_gex]
  exact ⟨assignHedgingPressure_abs_sum _, assignHedgingPressure_zero _⟩

/-- Witness for C1 on the single positive-GEX row: total absolute net
GEX is `100 > 0` and the absolute hedging pressures sum to 100. -/
theorem C1_hedging_pressure_witness :
    (sampleOut.table.map (fun row => |row.net_gex|)).sum > 0 ∧
    (sampleOut.table.map (fun row => |row.hedging_pressure|)).sum = 100 := by
  have hout : fetch_and_calculate_gex_dex zeroGamma zeroDelta [apiPosRow]
      100 1000 1 0 = .ok sampleOut := by
    norm_num [fetch_and_calculate_gex_dex, computeGreeks, exposureColumns,
      assignHedgingPressure, inRange, apiPosRow, zeroRow, sampleOut,
      List.filter_cons, Except.toOption, Option.getD]
  have hpos : (sampleOut.table.map (fun row => |row.net_gex|)).sum > 0 := by
    norm_num [sampleOut, fetch_and_calculate_gex_dex, computeGreeks,
      exposureColumns, assignHedgingPressure, inRange, apiPosRow, zeroRow,
      List.filter_cons, Except.toOption, Option.getD]
  exact ⟨hpos,
    (C1_hedging_pressure zeroGamma zeroDelta [apiPosRow] 100 1000 1 0
      sampleOut hout).1 hpos⟩

/-- C5: with `strikes_range = 12`, the default step of 100 (any symbol
other than NIFTY/FINNIFTY), and `S = 24500`, the retained strike set is
exactly the strikes of the input lying in `[23300, 25700]`: a strike at
23250 is excluded, a strike at 23300 is included, and a row is in the
output iff it is an in-window input row (out-of-range rows are omitted,
never zeroed). -/
theorem C5_strike_window (symbol : String) (rows : List RawRow) (row : RawRow)
    (h1 : symbol ≠ "NIFTY") (h2 : symbol ≠ "FINNIFTY") :
    strike_step symbol = 100 ∧
    (row ∈ rows.filter (inRange 24500 (12 * strike_step symbol)) ↔
      row ∈ rows ∧ 23300 ≤ row.strike ∧ row.strike ≤ 25700) ∧
    (row.strike = 23250 →
      row ∉ rows.filter (inRange 24500 (12 * strike_step symbol))) ∧
    (row.strike = 23300 → row ∈ rows →
      row ∈ rows.filter (inRange 24500 (12 * strike_step symbol))) := by
  have hstep : strike_step symbol = 100 := by
    simp [strike_step, h1, h2]
  have hiff : ∀ q : RawRow,
      (inRange 24500 (12 * strike_step symbol) q = true ↔
        23300 ≤ q.strike ∧ q.strike ≤ 25700) := by
    intro q
    rw [hstep]
    unfold inRange
    rw [Bool.and_eq_true, decide_eq_true_eq, decide_eq_true_eq]
    norm_num
  have hmem : row ∈ rows.filter (inRange 24500 (12 * strike_step symbol)) ↔
      row ∈ rows ∧ 23300 ≤ row.strike ∧ row.strike ≤ 25700 := by
    rw [List.mem_filter, hiff row]
  refine ⟨hstep, hmem, ?_, ?_⟩
  · intro hs hin
    rw [hmem, hs] at hin
    norm_num at hin
  · intro hs hin
    rw [hmem, hs]
    exact ⟨hin, by norm_num, by norm_num⟩

/-- Witness for C5 with symbol BANKNIFTY and the two edge strikes:
23300 is retained, 23250 is dropped. -/
theorem C5_strike_window_witness :
    ("BANKNIFTY" ≠ "NIFTY") ∧ ("BANKNIFTY" ≠ "FINNIFTY") ∧
    row23300 ∈ [row23250, row23300].filter
      (inRange 24500 (12 * strike_step "BANKNIFTY")) ∧
    row23250 ∉ [row23250, row23300].filter
      (inRange 24500 (12 * strike_step "BANKNIFTY")) :=
  ⟨by decide, by decide,
   (C5_strike_window "BANKNIFTY" [row23250, row23300] row23300
      (by decide) (by decide)).2.2.2 rfl (by simp),
   (C5_strike_window "BANKNIFTY" [row23250, row23300] row23250
      (by decide) (by decide)).2.2.1 rfl⟩

/-- C6: for every snapshot whose strike set is empty after range
filtering, `fetch_and_calculate_gex_dex` raises (modelled as
`Except.error`, the spec's ValidationError) and returns no output. -/
theorem C6_empty_filter_validation_error (bsGamma : ℚ → ℚ → ℚ → ℚ → ℚ → ℚ)
    (bsDelta : ℚ → ℚ → ℚ → ℚ → ℚ → Bool → ℚ)
    (parsed : List RawRow) (underlying_price range_points T r : ℚ)
    (h : parsed.filter (inRange underlying_price range_points) = []) :
    fetch_and_calculate_gex_dex bsGamma bsDelta parsed
      underlying_price range_points T r = .error "No strikes in range" ∧
    ∀ out, fetch_and_calculate_gex_dex bsGamma bsDelta parsed
      underlying_price range_points T r ≠ .ok out := by
  have herr : fetch_and_calculate_gex_dex bsGamma bsDelta parsed
      underlying_price range_points T r = .error "No strikes in range" := by
    unfold fetch_and_calculate_gex_dex
    rw [h]
  exact ⟨herr, fun out hk => by rw [herr] at hk; cases hk⟩

/-- Witness for C6: a single strike at 23250 with a ±100-point window
around 24500 filters to nothing and the call errors out. -/
theorem C6_empty_filter_validation_error_witness :
    [row23250].filter (inRange 24500 100) = [] ∧
    fetch_and_calculate_gex_dex zeroGamma zeroDelta [row23250]
      24500 100 1 0 = .error "No strikes in range" := by
  have h : [row23250].filter (inRange 24500 100) = [] := by
    norm_num [inRange, row23250, zeroRow, List.filter_cons]
  exact ⟨h,
    (C6_empty_filter_validation_error zeroGamma zeroDelta [row23250]
      24500 100 1 0 h).1⟩

/-- On every successful flow computation the two bias fields are the
classifications of the corresponding totals. -/
theorem flow_some_shape (df : List ExpRow) (futures_ltp : ℚ)
    (out : FlowSummary)
    (h : calculate_dual_gex_dex_flow df futures_ltp = some out) :
    out.gex_near_bias = classifyGex out.gex_near_total ∧
    out.dex_near_bias = classifyDex out.dex_near_total := by
  simp only [calculate_dual_gex_dex_flow] at h
  rcases hp : atmPosition futures_ltp (sortByStrike df) with _ | pos
  · rw [hp] at h
    cases h
  · rw [hp] at h
    simp only [Option.some.injEq] at h
    subst h
    exact ⟨rfl, rfl⟩

/-- The GEX classification chain, characterised. -/
theorem classifyGex_spec (x : ℚ) :
    (classifyGex x = .STRONG_BULLISH ↔ 50 < x) ∧
    (classifyGex x = .VOLATILE ↔ x < -50) ∧
    (classifyGex x = .NEUTRAL ↔ x ≤ 50 ∧ -50 ≤ x) := by
  unfold classifyGex
  split_ifs with ha hb
  · exact ⟨⟨fun _ => ha, fun _ => rfl⟩,
      ⟨fun h => (nomatch h), fun h => absurd ha (by linarith)⟩,
      ⟨fun h => (nomatch h), fun h => absurd ha (not_lt.mpr h.1)⟩⟩
  · exact ⟨⟨fun h => (nomatch h), fun h => absurd h ha⟩,
      ⟨fun _ => hb, fun _ => rfl⟩,
      ⟨fun h => (nomatch h), fun h => absurd hb (not_lt.mpr h.2)⟩⟩
  · exact ⟨⟨fun h => (nomatch h), fun h => absurd h ha⟩,
      ⟨fun h => (nomatch h), fun h => absurd h hb⟩,
      ⟨fun _ => ⟨not_lt.mp ha, not_lt.mp hb⟩, fun _ => rfl⟩⟩

/-- The DEX classification, characterised. -/
theorem classifyDex_spec (x : ℚ) :
    (classifyDex x = .BULLISH ↔ 0 < x) ∧
    (classifyDex x = .BEARISH ↔ x ≤ 0) := by
  unfold classifyDex
  split_ifs with ha
  · exact ⟨⟨fun _ => ha, fun _ => rfl⟩,
      ⟨fun h => (nomatch h), fun h => absurd ha (not_lt.mpr h)⟩⟩
  · exact ⟨⟨fun h => (nomatch h), fun h => absurd h ha⟩,
      ⟨fun _ => not_lt.mp ha, fun _ => rfl⟩⟩

/-- C7: on every flow summary the code returns, `gex_near_bias` is
STRONG_BULLISH exactly when `gex_near_total > 50`, VOLATILE exactly when
`< -50`, NEUTRAL otherwise (so exactly 50 is NEUTRAL); `dex_near_bias`
is BULLISH exactly when `dex_near_total > 0` and BEARISH otherwise (so
exactly 0 is BEARISH). -/
theorem C7_bias_thresholds (df : List ExpRow) (futures_ltp : ℚ)
    (out : FlowSummary)
    (h : calculate_dual_gex_dex_flow df futures_ltp = some out) :
    (out.gex_near_bias = .STRONG_BULLISH ↔ 50 < out.gex_near_total) ∧
    (out.gex_near_bias = .VOLATILE ↔ out.gex_near_total < -50) ∧
    (out.gex_near_bias = .NEUTRAL ↔
      out.gex_near_total ≤ 50 ∧ -50 ≤ out.gex_near_total) ∧
    (out.gex_near_total = 50 → out.gex_near_bias = .NEUTRAL) ∧
    (out.dex_near_bias = .BULLISH ↔ 0 < out.dex_near_total) ∧
    (out.dex_near_bias = .BEARISH ↔ out.dex_near_total ≤ 0) ∧
    (out.dex_near_total = 0 → out.dex_near_bias = .BEARISH) := by
  obtain ⟨hg, hd⟩ := flow_some_shape df futures_ltp out h
  rw [hg, hd]
  obtain ⟨g1, g2, g3⟩ := classifyGex_spec out.gex_near_total
  obtain ⟨d1, d2⟩ := classifyDex_spec out.dex_near_total
  refine ⟨g1, g2, g3, fun h50 => g3.mpr ⟨le_of_eq h50, by rw [h50]; norm_num⟩,
    d1, d2, fun h0 => d2.mpr (le_of_eq h0)⟩

/-- Witness for C7 on the sample one-row table: its flow summary has
`dex_near_total = 0` and is classified BEARISH, and `gex_near_total = 0`
is classified NEUTRAL. -/
theorem C7_bias_thresholds_witness :
    calculate_dual_gex_dex_flow [sampleExpRow] 100 = some sampleFlow ∧
    sampleFlow.dex_near_total = 0 ∧ sampleFlow.dex_near_bias = .BEARISH ∧
    sampleFlow.gex_near_bias = .NEUTRAL := by
  have hflow : calculate_dual_gex_dex_flow [sampleExpRow] 100 = some sampleFlow := by
    norm_num [calculate_dual_gex_dex_flow, sortByStrike, insertByStrike,
      atmPosition, sampleFlow, sampleExpRow, exposureColumns, zeroRow,
      Option.getD]
  have hdex : sampleFlow.dex_near_total = 0 := by
    norm_num [calculate_dual_gex_dex_flow, sortByStrike, insertByStrike,
      atmPosition, sampleFlow, sampleExpRow, exposureColumns, zeroRow,
      classifyGex, classifyDex, Option.getD]
  have hgex : sampleFlow.gex_near_total ≤ 50 ∧ -50 ≤ sampleFlow.gex_near_total := by
    norm_num [calculate_dual_gex_dex_flow, sortByStrike, insertByStrike,
      atmPosition, sampleFlow, sampleExpRow, exposureColumns, zeroRow,
      classifyGex, classifyDex, Option.getD]
  refine ⟨hflow, hdex, ?_, ?_⟩
  · exact (C7_bias_thresholds [sampleExpRow] 100 sampleFlow hflow).2.2.2.2.2.2 hdex
  · exact (C7_bias_thresholds [sampleExpRow] 100 sampleFlow hflow).2.2.1.mpr hgex

/-- Ordered insertion grows the length by one. -/
theorem insertByStrike_length (x : ExpRow) (l : List ExpRow) :
    (insertByStrike x l).length = l.length + 1 := by
  induction l with
  | nil => rfl
  | cons y ys ih =>
      unfold insertByStrike
      split
      · simp
      · simp [ih]

/-- Sorting preserves length. -/
theorem sortByStrike_length (l : List ExpRow) :
    (sortByStrike l).length = l.length := by
  unfold sortByStrike
  induction l with
  | nil => rfl
  | cons x xs ih =>
      rw [List.foldr_cons, insertByStrike_length, ih, List.length_cons]

/-- C10: `calculate_dual_gex_dex_flow` returns `None` exactly on the
inputs where its internal steps raise — here, the empty exposure table,
where the nearest-strike lookup fails — and on every nonempty table it
returns a complete five-field summary. -/
theorem C10_flow_total (df : List ExpRow) (futures_ltp : ℚ) :
    (calculate_dual_gex_dex_flow df futures_ltp = none ↔ df = []) ∧
    (df ≠ [] → ∃ out, calculate_dual_gex_dex_flow df futures_ltp = some out) := by
  have key : df ≠ [] → ∃ out, calculate_dual_gex_dex_flow df futures_ltp = some out := by
    intro h
    have hne : sortByStrike df ≠ [] := by
      intro hnil
      apply h
      rw [← List.length_eq_zero, ← sortByStrike_length df, hnil]
      rfl
    obtain ⟨x, xs, hs⟩ := List.exists_cons_of_ne_nil hne
    simp only [calculate_dual_gex_dex_flow, hs]
    exact ⟨_, rfl⟩
  refine ⟨⟨fun hnone => ?_, fun hnil => by subst hnil; rfl⟩, key⟩
  by_contra hne
  obtain ⟨out, hout⟩ := key hne
  rw [hout] at hnone
  cases hnone

/-- Witness for C10: the empty table yields `None`; the one-row sample
table does not. -/
theorem C10_flow_total_witness :
    calculate_dual_gex_dex_flow [] 100 = none ∧
    calculate_dual_gex_dex_flow [sampleExpRow] 100 ≠ none :=
  ⟨(C10_flow_total [] 100).1.mpr rfl,
   fun hn => List.cons_ne_nil sampleExpRow []
     ((C10_flow_total [sampleExpRow] 100).1.mp hn)⟩

/-- Step 6 on the API-Greeks path: when the filtered frame's absolute
API call gammas sum to a positive value, the Greek columns are copied
verbatim from the API fields. -/
theorem computeGreeks_api (bsGamma : ℚ → ℚ → ℚ → ℚ → ℚ → ℚ)
    (bsDelta : ℚ → ℚ → ℚ → ℚ → ℚ → Bool → ℚ)
    (underlying_price T r : ℚ) (rows : List RawRow)
    (h : (rows.map (fun x => |x.call_gamma_api|)).sum > 0) :
    computeGreeks bsGamma bsDelta underlying_price T r rows =
      rows.map (fun x =>
        { toRawRow := x
          call_gamma := x.call_gamma_api
          put_gamma := x.put_gamma_api
          call_delta := x.call_delta_api
          put_delta := x.put_delta_api }) := by
  unfold computeGreeks
  rw [if_pos h]

/-- Step 6 on the Black-Scholes path: when no API call gamma is nonzero,
each Greek is the injected Black-Scholes callback applied with the
0.01-clamped IV. -/
theorem computeGreeks_bs (bsGamma : ℚ → ℚ → ℚ → ℚ → ℚ → ℚ)
    (bsDelta : ℚ → ℚ → ℚ → ℚ → ℚ → Bool → ℚ)
    (underlying_price T r : ℚ) (rows : List RawRow)
    (h : ¬ (rows.map (fun x => |x.call_gamma_api|)).sum > 0) :
    computeGreeks bsGamma bsDelta underlying_price T r rows =
      rows.map (fun x =>
        { toRawRow := x
          call_gamma := bsGamma underlying_price x.strike T r (max x.call_iv 0.01)
          put_gamma := bsGamma underlying_price x.strike T r (max x.put_iv 0.01)
          call_delta := bsDelta underlying_price x.strike T r (max x.call_iv 0.01) true
          put_delta := bsDelta underlying_price x.strike T r (max x.put_iv 0.01) false }) := by
  unfold computeGreeks
  rw [if_neg h]

/-- Every row of the final table carries its Greeks row unchanged through
the exposure and hedging-pressure stages. -/
theorem mem_table_toGreeksRow (pre : List GreeksRow) (underlying_price : ℚ)
    (row : ExpRow)
    (hrow : row ∈ assignHedgingPressure (pre.map (exposureColumns underlying_price))) :
    ∃ g ∈ pre, row.toGreeksRow = g := by
  unfold assignHedgingPressure at hrow
  rw [List.map_map, List.mem_map] at hrow
  obtain ⟨g, hg, hgr⟩ := hrow
  subst hgr
  exact ⟨g, hg, rfl⟩

/-- C9: if any filtered row carries a nonzero API call gamma, the result
is independent of the Black-Scholes callbacks (they are never invoked)
and every table row's Greeks equal its API-supplied fields verbatim;
only when all API call gammas are zero are the Greeks computed by the
Black-Scholes callbacks (with IV clamped below by 0.01). -/
theorem C9_api_greeks_priority
    (bsGamma₁ bsGamma₂ : ℚ → ℚ → ℚ → ℚ → ℚ → ℚ)
    (bsDelta₁ bsDelta₂ : ℚ → ℚ → ℚ → ℚ → ℚ → Bool → ℚ)
    (parsed : List RawRow) (underlying_price range_points T r : ℚ) :
    ((((parsed.filter (inRange underlying_price range_points)).map
        (fun x => |x.call_gamma_api|)).sum > 0 →
      fetch_and_calculate_gex_dex bsGamma₁ bsDelta₁ parsed
          underlying_price range_points T r =
        fetch_and_calculate_gex_dex bsGamma₂ bsDelta₂ parsed
          underlying_price range_points T r ∧
      ∀ out, fetch_and_calculate_gex_dex bsGamma₁ bsDelta₁ parsed
          underlying_price range_points T r = .ok out →
        ∀ row ∈ out.table,
          row.call_gamma = row.call_gamma_api ∧
          row.put_gamma = row.put_gamma_api ∧
          row.call_delta = row.call_delta_api ∧
          row.put_delta = row.put_delta_api)) ∧
    (((parsed.filter (inRange underlying_price range_points)).map
        (fun x => |x.call_gamma_api|)).sum = 0 →
      ∀ out, fetch_and_calculate_gex_dex bsGamma₁ bsDelta₁ parsed
          underlying_price range_points T r = .ok out →
        ∀ row ∈ out.table,
          row.call_gamma = bsGamma₁ underlying_price row.strike T r (max row.call_iv 0.01) ∧
          row.put_gamma = bsGamma₁ underlying_price row.strike T r (max row.put_iv 0.01) ∧
          row.call_delta = bsDelta₁ underlying_price row.strike T r (max row.call_iv 0.01) true ∧
          row.put_delta = bsDelta₁ underlying_price row.strike T r (max row.put_iv 0.01) false) := by
  constructor
  · intro h
    constructor
    · rcases hfil : parsed.filter (inRange underlying_price range_points) with _ | ⟨x, xs⟩
      · unfold fetch_and_calculate_gex_dex
        rw [hfil]
      · rw [hfil] at h
        unfold fetch_and_calculate_gex_dex
        rw [hfil]
        dsimp only
        rw [computeGreeks_api bsGamma₁ bsDelta₁ underlying_price T r (x :: xs) h,
          computeGreeks_api bsGamma₂ bsDelta₂ underlying_price T r (x :: xs) h]
    · intro out hout row hrow
      rw [fetch_table_shape bsGamma₁ bsDelta₁ parsed
        underlying_price range_points T r out hout] at hrow
      obtain ⟨g, hg, hgr⟩ := mem_table_toGreeksRow _ _ _ hrow
      rw [computeGreeks_api bsGamma₁ bsDelta₁ underlying_price T r _ h,
        List.mem_map] at hg
      obtain ⟨x, _, rfl⟩ := hg
      refine ⟨?_, ?_, ?_, ?_⟩ <;> rw [hgr]
  · intro h out hout row hrow
    have h' : ¬ ((parsed.filter (inRange underlying_price range_points)).map
        (fun x => |x.call_gamma_api|)).sum > 0 := by
      rw [h]
      exact lt_irrefl 0
    rw [fetch_table_shape bsGamma₁ bsDelta₁ parsed
      underlying_price range_points T r out hout] at hrow
    obtain ⟨g, hg, hgr⟩ := mem_table_toGreeksRow _ _ _ hrow
    rw [computeGreeks_bs bsGamma₁ bsDelta₁ underlying_price T r _ h',
      List.mem_map] at hg
    obtain ⟨x, _, rfl⟩ := hg
    refine ⟨?_, ?_, ?_, ?_⟩ <;> rw [hgr]

/-- Witness for C9: on the two-row API-Greeks snapshot, swapping the
Black-Scholes callbacks (all-zero versus all-one) does not change the
result. -/
theorem C9_api_greeks_priority_witness :
    ((([apiPosRow, apiNegRow].filter (inRange 100 1000)).map
        (fun x => |x.call_gamma_api|)).sum > 0) ∧
    fetch_and_calculate_gex_dex zeroGamma zeroDelta [apiPosRow, apiNegRow]
        100 1000 1 0 =
      fetch_and_calculate_gex_dex oneGamma oneDelta [apiPosRow, apiNegRow]
        100 1000 1 0 := by
  have h : (([apiPosRow, apiNegRow].filter (inRange 100 1000)).map
      (fun x => |x.call_gamma_api|)).sum > 0 := by
    norm_num [inRange, apiPosRow, apiNegRow, zeroRow, List.filter_cons]
  exact ⟨h, ((C9_api_greeks_priority zeroGamma oneGamma zeroDelta oneDelta
    [apiPosRow, apiNegRow] 100 1000 1 0).1 h).1⟩

end GexDex
